import Mathlib

/-! Shallow embedding of the node-local caching file store of
`src/toil/fileStores/cachingFileStore.py` (class CachingFileStore).

The database state (tables `files`, `refs`, `jobs`, `properties`) is modelled
as lists of rows; the on-disk cache directory is modelled as the list of
present paths.  SQL aggregate semantics are modelled faithfully: `SUM` over
zero rows is NULL (`none`), and NULL propagates through subtraction.  Python
exceptions are modelled with an explicit error type: a statement that the
sqlite3 layer rejects (illegal syntax, wrong binding count) raises at the
point of the `execute` call and leaves the database unchanged, exactly as in
CPython, and each embedded function stops at its first raising statement,
returning the state accumulated so far together with the error. -/

namespace Toil

/-- File states, from the `files.state` column
(cachingFileStore.py lines 115-137). -/
inductive FileState where
  | downloading
  | cached
  | uploading
  | deleting
  deriving DecidableEq

/-- Reference states, from the `refs.state` column
(cachingFileStore.py lines 139-156). -/
inductive RefState where
  | immutable
  | copying
  | mutable
  deriving DecidableEq

/-- A row of the `files` table (schema at cachingFileStore.py lines 233-241):
id TEXT PRIMARY KEY, path TEXT UNIQUE, size INT, state TEXT, owner INT
(nullable). -/
structure FileRow where
  id : String
  path : String
  size : Int
  state : FileState
  owner : Option Nat
  deriving DecidableEq

/-- A row of the `refs` table (schema at lines 242-249):
path TEXT PRIMARY KEY, file_id TEXT, job_id TEXT, state TEXT. -/
structure RefRow where
  path : String
  file_id : String
  job_id : String
  state : RefState
  deriving DecidableEq

/-- A row of the `jobs` table (schema at lines 250-257):
id TEXT PRIMARY KEY, temp TEXT, disk INT, worker INT (nullable). -/
structure JobRow where
  id : String
  temp : String
  disk : Int
  worker : Option Nat
  deriving DecidableEq

/-- The shared cache database: the four tables of the schema.  The
`properties` table is a name-to-value map with recognized keys maxSpace and
freeCaching. -/
structure DB where
  files : List FileRow
  refs : List RefRow
  jobs : List JobRow
  props : List (String × Int)
  deriving DecidableEq

/-- Combined state: the database plus the set of paths present on the local
filesystem. -/
structure Sys where
  db : DB
  disk : List String
  deriving DecidableEq

/-- Python-level exceptions raised by the embedded code.  `fuelExhausted` is
an artifact of the fuel-indexed loop embedding only, never of the code. -/
inductive Err where
  | typeError
  | operationalError
  | programmingError
  | attributeError
  | nameError
  | runtimeError
  | integrityError
  | fileNotFoundError
  | fuelExhausted
  deriving DecidableEq

/-- Total integer sum of a list (used below the non-NULL guard). -/
def sumInts (l : List Int) : Int :=
  l.foldl (· + ·) 0

/-- SQL SUM aggregate: NULL (none) over zero rows, the total otherwise. -/
def sqlSum (l : List Int) : Option Int :=
  match l with
  | [] => none
  | _ :: _ => some (sumInts l)

/-- SQL subtraction with NULL propagation: any NULL operand gives NULL. -/
def optSub : Option Int → Option Int → Option Int
  | some a, some b => some (a - b)
  | _, _ => none

/-- Scalar subquery `SELECT value FROM properties WHERE name = n`: the value
of the first matching row, or NULL when there is none. -/
def DB.propValue (db : DB) (n : String) : Option Int :=
  (db.props.find? (fun q => decide (q.1 = n))).map (fun q => q.2)

/-- Embeds `getCacheLimit` (lines 268-277): the maxSpace property, if any. -/
def getCacheLimit (db : DB) : Option Int :=
  db.propValue "maxSpace"

/-- Embeds `getCacheUsed` (lines 279-288): `SELECT SUM(size) FROM files`;
returns the single aggregate row, which is NULL for an empty table. -/
def getCacheUsed (db : DB) : Option Int :=
  sqlSum (db.files.map (fun f => f.size))

/-- The column list produced by
`SELECT files.size FROM refs INNER JOIN files ON refs.file_id = files.id
WHERE refs.state = 'immutable'`: one entry per (immutable reference, matching
file) pair. -/
def immutableRefFileSizes (db : DB) : List Int :=
  (db.refs.filter (fun r => decide (r.state = RefState.immutable))).flatMap
    (fun r => (db.files.filter (fun f => decide (f.id = r.file_id))).map
      (fun f => f.size))

/-- Embeds `getCacheExtraJobSpace` (lines 290-310):
`(SELECT SUM(disk) FROM jobs) - (SELECT SUM(files.size) FROM refs INNER JOIN
files ... WHERE refs.state == 'immutable')` with SQL NULL propagation. -/
def getCacheExtraJobSpace (db : DB) : Option Int :=
  optSub (sqlSum (db.jobs.map (fun j => j.disk)))
    (sqlSum (immutableRefFileSizes db))

/-- Embeds `getCacheAvailable` (lines 312-334): maxSpace minus SUM(size) over
files, minus (SUM(disk) over jobs minus SUM(files.size) over the immutable
reference join), with SQL NULL propagation at every subtraction. -/
def getCacheAvailable (db : DB) : Option Int :=
  optSub
    (optSub (db.propValue "maxSpace") (sqlSum (db.files.map (fun f => f.size))))
    (optSub (sqlSum (db.jobs.map (fun j => j.disk)))
      (sqlSum (immutableRefFileSizes db)))

/-- Embeds `fileIsCached` (lines 360-371). -/
def fileIsCached (db : DB) (fileID : String) : Bool :=
  db.files.any (fun f => decide (f.id = fileID ∧ f.state = FileState.cached))

/-- Embeds the Python comparison `x < 0` where x came from the database:
comparing None with an int raises TypeError. -/
def pyLtZero : Option Int → Except Err Bool
  | none => Except.error Err.typeError
  | some v => Except.ok (decide (v < 0))

/-- Embeds `_removeDeadJobs` (lines 1058-1139).  Its first statement,
`cur = con.Cursor()` (line 1069), accesses an attribute that sqlite3
connection and cursor objects do not have (the method is `cursor()`), so
every call raises AttributeError before any database read or write and
before any filesystem operation. -/
def removeDeadJobsRun (s : Sys) : Sys × Except Err Unit :=
  (s, Except.error Err.attributeError)

/-- Embeds `_stealWorkFromTheDead` (lines 436-480).  Its first statement,
`SELECT UNIQUE(owner) FROM files` (line 447), is rejected by SQLite (UNIQUE
is not a function), so every call raises OperationalError before any update;
the three `UPDATE files SET (owner = ?, state = ?) WHERE ...` statements that
follow are themselves illegal SQLite syntax as well. -/
def stealWorkFromTheDeadRun (s : Sys) : Sys × Except Err Unit :=
  (s, Except.error Err.operationalError)

/-- Embeds `_executePendingDeletions` (lines 482-511).  Its first statement,
`SELECT (id, path) FROM files WHERE owner = ? AND state = ?` (line 494), uses
a parenthesized row value as the result column, which SQLite rejects
(row value misused), so every call raises OperationalError before any unlink
or any DELETE. -/
def executePendingDeletionsRun (s : Sys) : Sys × Except Err Unit :=
  (s, Except.error Err.operationalError)

/-- One UPDATE of `_executePendingUploads`:
`UPDATE files SET state = 'cached', owner = NULL WHERE id = ?`. -/
def setCachedById (db : DB) (i : String) : DB :=
  { db with files := db.files.map (fun g =>
      if g.id = i then { g with state := FileState.cached, owner := none }
      else g) }

/-- Embeds `_executePendingUploads` (lines 513-536): select our files in
uploading state, call `jobStore.updateFile(id, path)` on each (an external
call that may raise; `uploadOk` says which succeed — a failure propagates
before any UPDATE has run), then set each to cached with NULL owner. -/
def executePendingUploadsRun (pid : Nat) (uploadOk : String → String → Bool)
    (s : Sys) : Sys × Except Err Nat :=
  if (s.db.files.filter (fun f =>
      decide (f.state = FileState.uploading ∧ f.owner = some pid))).all
      (fun f => uploadOk f.id f.path) then
    (⟨(s.db.files.filter (fun f =>
        decide (f.state = FileState.uploading ∧ f.owner = some pid))).foldl
          (fun d f => setCachedById d f.id) s.db, s.disk⟩,
      Except.ok (s.db.files.filter (fun f =>
        decide (f.state = FileState.uploading ∧ f.owner = some pid))).length)
  else
    (s, Except.error Err.runtimeError)

/-- Embeds `_tryToFreeUpSpace` (lines 574-631): run `_removeDeadJobs(self.cur)`
(which raises AttributeError at once), then `_stealWorkFromTheDead`, then
`if self._executePendingDeletions() > 0` — that call has no return statement,
so even if it ran, comparing its None result with 0 would raise TypeError.
Every branch past the first call is unreachable. -/
def tryToFreeUpSpaceRun (s : Sys) : Sys × Except Err Unit :=
  match removeDeadJobsRun s with
  | (s1, Except.error e) => (s1, Except.error e)
  | (s1, Except.ok _) =>
    match stealWorkFromTheDeadRun s1 with
    | (s2, Except.error e) => (s2, Except.error e)
    | (s2, Except.ok _) =>
      match executePendingDeletionsRun s2 with
      | (s3, Except.error e) => (s3, Except.error e)
      | (s3, Except.ok _) => (s3, Except.error Err.typeError)

/-- Embeds `_freeUpSpace` (lines 633-641): `while self.getCacheAvailable() < 0:
self._tryToFreeUpSpace()`.  The loop is indexed by fuel; no theorem below ever
reaches the fuel-exhausted case, because the loop body always raises. -/
def freeUpSpaceRun : Nat → Sys → Sys × Except Err Unit
  | 0, s => (s, Except.error Err.fuelExhausted)
  | fuel + 1, s =>
    match pyLtZero (getCacheAvailable s.db) with
    | Except.error e => (s, Except.error e)
    | Except.ok false => (s, Except.ok ())
    | Except.ok true =>
      match tryToFreeUpSpaceRun s with
      | (s1, Except.error e) => (s1, Except.error e)
      | (s1, Except.ok _) => freeUpSpaceRun fuel s1

/-- Embeds `_allocateSpaceForJob` (lines 540-572): insert the job row
(id TEXT PRIMARY KEY), then `if self.getCacheAvailable() >= 0: return`, else
`self._freeUpSpace()`.  When getCacheAvailable returns None the comparison
raises TypeError. -/
def allocateSpaceForJobRun (jobID temp : String) (newJobReqs : Int) (pid : Nat)
    (fuel : Nat) (s : Sys) : Sys × Except Err Unit :=
  if s.db.jobs.any (fun j => decide (j.id = jobID)) then
    (s, Except.error Err.integrityError)
  else
    match getCacheAvailable
        { s.db with jobs := s.db.jobs ++ [⟨jobID, temp, newJobReqs, some pid⟩] } with
    | none =>
      (⟨{ s.db with jobs := s.db.jobs ++ [⟨jobID, temp, newJobReqs, some pid⟩] },
        s.disk⟩, Except.error Err.typeError)
    | some v =>
      if 0 ≤ v then
        (⟨{ s.db with jobs := s.db.jobs ++ [⟨jobID, temp, newJobReqs, some pid⟩] },
          s.disk⟩, Except.ok ())
      else
        freeUpSpaceRun fuel
          ⟨{ s.db with jobs := s.db.jobs ++ [⟨jobID, temp, newJobReqs, some pid⟩] },
            s.disk⟩

/-- Inputs of one `writeGlobalFile` call (lines 694-746): the resolved local
path and its stat size, the creating job, the fresh fileID handed out by the
JobStore, the cache path derived from it, the caller PID, and whether the
`os.link(absLocalFileName, cachePath)` call succeeds. -/
structure WriteParams where
  absLocalFileName : String
  fileSize : Int
  creatorID : String
  fileID : String
  cachePath : String
  pid : Nat
  linkOk : Bool

/-- Result of `writeGlobalFile`: the final state, the list of synchronous
`jobStore.updateFile(fileID, path)` calls made, and the returned FileID (or
the raised error). -/
structure WriteOut where
  sys : Sys
  jobStoreUploads : List (String × String)
  ret : Except Err String

/-- Embeds `writeGlobalFile` (lines 694-746).  In one transaction insert
`files(fileID, cachePath, fileSize, 'uploading', pid)` (id PRIMARY KEY, path
UNIQUE) and `refs(absLocalFileName, fileID, creatorID, 'immutable')` (path
PRIMARY KEY).  Then try the hardlink into the cache: on success return the
FileID with the upload deferred; on OSError update that reference to mutable,
delete the files row, synchronously upload via updateFile, and return the
FileID. -/
def writeGlobalFileRun (w : WriteParams) (s : Sys) : WriteOut :=
  if s.db.files.any (fun f => decide (f.id = w.fileID ∨ f.path = w.cachePath)) then
    { sys := s, jobStoreUploads := [], ret := Except.error Err.integrityError }
  else if s.db.refs.any (fun r => decide (r.path = w.absLocalFileName)) then
    { sys := ⟨{ s.db with files := s.db.files ++
        [⟨w.fileID, w.cachePath, w.fileSize, FileState.uploading, some w.pid⟩] },
      s.disk⟩,
      jobStoreUploads := [], ret := Except.error Err.integrityError }
  else if w.linkOk then
    { sys := ⟨{ s.db with
        files := s.db.files ++
          [⟨w.fileID, w.cachePath, w.fileSize, FileState.uploading, some w.pid⟩],
        refs := s.db.refs ++
          [⟨w.absLocalFileName, w.fileID, w.creatorID, RefState.immutable⟩] },
      s.disk ++ [w.cachePath]⟩,
      jobStoreUploads := [], ret := Except.ok w.fileID }
  else
    { sys := ⟨{ s.db with
        files := (s.db.files ++
          [(⟨w.fileID, w.cachePath, w.fileSize, FileState.uploading,
            some w.pid⟩ : FileRow)]).filter
            (fun f => decide (¬ f.id = w.fileID)),
        refs := (s.db.refs ++
          [(⟨w.absLocalFileName, w.fileID, w.creatorID,
            RefState.immutable⟩ : RefRow)]).map
            (fun r =>
              if r.path = w.absLocalFileName then { r with state := RefState.mutable }
              else r) },
      s.disk⟩,
      jobStoreUploads := [(w.fileID, w.absLocalFileName)],
      ret := Except.ok w.fileID }

/-- Embeds `readGlobalFile` (lines 748-933) for the database state.  With
cache=False the function only calls `jobStore.readFile` and touches no table.
With cache=True, line 766 `cachedPath = self._getCachedPath(fileID)` reads the
undefined name `fileID` (the parameter is `fileStoreID`), so the call raises
NameError before its first database statement. -/
def readGlobalFileRun (cache : Bool) (s : Sys) : Sys × Except Err Unit :=
  if cache then (s, Except.error Err.nameError)
  else (s, Except.ok ())

/-- Embeds the `os.remove` loop of `deleteLocalFile`: remove each path in
order; a missing path raises FileNotFoundError there, keeping the removals
already made. -/
def osRemoveAll (disk : List String) : List String → List String × Except Err Unit
  | [] => (disk, Except.ok ())
  | p :: rest =>
    if disk.contains p then osRemoveAll (disk.erase p) rest
    else (disk, Except.error Err.fileNotFoundError)

/-- Embeds `deleteLocalFile` (lines 941-955): select the reference paths with
`file_id = fileStoreID AND job_id = jobID`, `os.remove` each, then
`DELETE FROM refs WHERE file_id = ? AND job_id = ?`, then `_freeUpSpace()`. -/
def deleteLocalFileRun (jobID fileStoreID : String) (fuel : Nat) (s : Sys) :
    Sys × Except Err Unit :=
  match osRemoveAll s.disk ((s.db.refs.filter (fun r =>
      decide (r.file_id = fileStoreID ∧ r.job_id = jobID))).map
        (fun r => r.path)) with
  | (disk1, Except.error e) => (⟨s.db, disk1⟩, Except.error e)
  | (disk1, Except.ok _) =>
    freeUpSpaceRun fuel
      ⟨{ s.db with refs := s.db.refs.filter (fun r =>
          decide (¬ (r.file_id = fileStoreID ∧ r.job_id = jobID))) }, disk1⟩

/-- Embeds `deleteGlobalFile` (lines 957-981): first `deleteLocalFile`; then
the reference check `SELECT job_id FROM refs WHERE file_id = ?` is executed
with the binding tuple `(fileStoreID, 'mutable')` — two bindings for one
placeholder — so sqlite3 raises ProgrammingError on every call, before the
UPDATE to deleting state, before `_executePendingDeletions`, and before the
fileID is queued on filesToDelete.  The middle component is the list of
fileIDs queued for backing-store deletion (always empty). -/
def deleteGlobalFileRun (jobID fileStoreID : String) (fuel : Nat) (s : Sys) :
    Sys × List String × Except Err Unit :=
  match deleteLocalFileRun jobID fileStoreID fuel s with
  | (s1, Except.error e) => (s1, [], Except.error e)
  | (s1, Except.ok _) => (s1, [], Except.error Err.programmingError)

/-- Embeds `adjustCacheLimit` (lines 352-358):
`UPDATE properties SET value = ? WHERE name = 'maxSpace'`. -/
def adjustCacheLimitRun (newTotalBytes : Int) (s : Sys) : Sys :=
  ⟨{ s.db with props := s.db.props.map (fun q =>
      if q.1 = "maxSpace" then ("maxSpace", newTotalBytes) else q) }, s.disk⟩

/-- Embeds `cachingIsFree` (lines 385-431).  If the freeCaching property is
stored, return whether it equals 1 without probing.  Otherwise probe: with a
file job store, create an empty global file, read it out, and test the link
count of the materialized copy with `os.stat(cachedFile).st_nlink == 2`
(free = 1 exactly when the count is 2); without a file job store free = 0.
Persist via `INSERT OR IGNORE INTO properties` and return `free == 1`.  The
probe temporaries are created and removed again, leaving the disk as it
was. -/
def cachingIsFreeRun (isFileJobStore : Bool) (st_nlink : Nat) (s : Sys) :
    Sys × Bool :=
  match s.db.propValue "freeCaching" with
  | some v => (s, decide (v = 1))
  | none =>
    (⟨if s.db.props.any (fun q => decide (q.1 = "freeCaching")) then s.db
      else { s.db with props := s.db.props ++ [("freeCaching",
        if isFileJobStore then (if st_nlink = 2 then 1 else 0) else 0)] },
      s.disk⟩,
      decide ((if isFileJobStore then (if st_nlink = 2 then (1 : Int) else 0)
        else 0) = 1))

/-- Embeds `commitCurrentJob` (lines 990-1013) up to its database effects:
`_executePendingUploads` then `_executePendingDeletions` (which raises). -/
def commitCurrentJobRun (pid : Nat) (uploadOk : String → String → Bool)
    (s : Sys) : Sys × Except Err Unit :=
  match executePendingUploadsRun pid uploadOk s with
  | (s1, Except.error e) => (s1, Except.error e)
  | (s1, Except.ok _) => executePendingDeletionsRun s1

/-- Embeds `shutdown` (lines 1015-1049): open the database via the cache.db
hardlink, ensure tables, then `_removeDeadJobs(con)` — which raises
AttributeError at `con.Cursor()`, so the exception propagates and the final
`shutil.rmtree` is never reached. -/
def shutdownRun (s : Sys) : Sys × Except Err Unit :=
  match removeDeadJobsRun s with
  | (s1, Except.error e) => (s1, Except.error e)
  | (_, Except.ok _) => (⟨⟨[], [], [], []⟩, []⟩, Except.ok ())

/-- The recovery engine: `_removeDeadJobs` followed by `_stealWorkFromTheDead`
(called in this order at lines 582-585 and 818-819); an exception from the
first call propagates. -/
def recoveryEngineRun (s : Sys) : Sys × Except Err Unit :=
  match removeDeadJobsRun s with
  | (s1, Except.error e) => (s1, Except.error e)
  | (s1, Except.ok _) => stealWorkFromTheDeadRun s1

/-- The database-writing operations of the store, used to state the
owner/state invariant once over all of them. -/
inductive Op where
  | writeGlobal (w : WriteParams)
  | readGlobal (cache : Bool)
  | deleteLocal (jobID fileStoreID : String) (fuel : Nat)
  | deleteGlobal (jobID fileStoreID : String) (fuel : Nat)
  | pendingUploads (pid : Nat) (uploadOk : String → String → Bool)
  | pendingDeletions
  | stealWork
  | removeDead
  | tryFree
  | free (fuel : Nat)
  | allocate (jobID temp : String) (newJobReqs : Int) (pid : Nat) (fuel : Nat)
  | adjustLimit (newTotalBytes : Int)
  | checkFree (isFileJobStore : Bool) (st_nlink : Nat)
  | commit (pid : Nat) (uploadOk : String → String → Bool)
  | shutdownOp

/-- The state reached by one operation of the store (on an exception, the
state accumulated when it was raised). -/
def applyOp : Op → Sys → Sys
  | Op.writeGlobal w, s => (writeGlobalFileRun w s).sys
  | Op.readGlobal c, s => (readGlobalFileRun c s).1
  | Op.deleteLocal j f fuel, s => (deleteLocalFileRun j f fuel s).1
  | Op.deleteGlobal j f fuel, s => (deleteGlobalFileRun j f fuel s).1
  | Op.pendingUploads pid ok, s => (executePendingUploadsRun pid ok s).1
  | Op.pendingDeletions, s => (executePendingDeletionsRun s).1
  | Op.stealWork, s => (stealWorkFromTheDeadRun s).1
  | Op.removeDead, s => (removeDeadJobsRun s).1
  | Op.tryFree, s => (tryToFreeUpSpaceRun s).1
  | Op.free fuel, s => (freeUpSpaceRun fuel s).1
  | Op.allocate j t r pid fuel, s => (allocateSpaceForJobRun j t r pid fuel s).1
  | Op.adjustLimit n, s => adjustCacheLimitRun n s
  | Op.checkFree b n, s => (cachingIsFreeRun b n s).1
  | Op.commit pid ok, s => (commitCurrentJobRun pid ok s).1
  | Op.shutdownOp, s => (shutdownRun s).1

/-- The owner/state invariant over a files table: owner is null exactly for
cached rows. -/
def filesInv (l : List FileRow) : Prop :=
  ∀ f ∈ l, (f.state = FileState.cached ↔ f.owner = none)

/-- The owner/state invariant of a state. -/
def ownerStateInv (s : Sys) : Prop :=
  filesInv s.db.files

/-- Job overhead as worded by claim C1: the sum of Job.disk over all jobs
minus the sum of File.size over the files that have at least one immutable
reference (each such file counted once). -/
def claimJobOverhead (db : DB) : Int :=
  sumInts (db.jobs.map (fun j => j.disk)) -
    sumInts ((db.files.filter (fun f => db.refs.any (fun r =>
      decide (r.state = RefState.immutable ∧ r.file_id = f.id)))).map
        (fun f => f.size))

/-- The value claim C1 says getCacheAvailable returns in every state with
maxSpace = m: maxSpace minus used minus job overhead, as total arithmetic. -/
def claimAvailable (m : Int) (db : DB) : Int :=
  m - sumInts (db.files.map (fun f => f.size)) - claimJobOverhead db

/-- The freeCaching value claim C7 says the probe persists: 1 when the link
count is at least 2, else 0. -/
def claimFreeValue (st_nlink : Nat) : Int :=
  if 2 ≤ st_nlink then 1 else 0

/-- Counterexample state for C1: maxSpace 100, one cached 10-byte file, one
job with disk 20, and no references at all. -/
def c1db : DB :=
  ⟨[⟨"f1", "/c/f1", 10, FileState.cached, none⟩], [],
    [⟨"j1", "/t1", 20, some 1⟩], [("maxSpace", 100)]⟩

/-- Boundary state for C1: maxSpace 30, used 10, job overhead 30 - 10 = 20,
so available is exactly 0. -/
def c1dbEq : DB :=
  ⟨[⟨"f1", "/c/f1", 10, FileState.cached, none⟩],
    [⟨"/j1/a", "f1", "j1", RefState.immutable⟩],
    [⟨"j1", "/t1", 30, some 1⟩], [("maxSpace", 30)]⟩

/-- The boundary state of C1 with its disk contents. -/
def c1sysEq : Sys :=
  ⟨c1dbEq, ["/c/f1", "/j1/a"]⟩

/-- Failing input for C2: one file in deleting state owned by dead PID 99. -/
def c2sys : Sys :=
  ⟨⟨[⟨"f1", "/c/f1", 5, FileState.deleting, some 99⟩], [], [], []⟩, ["/c/f1"]⟩

/-- Failing input for C4: one file in deleting state owned by the calling
process (PID 1), with its path present on disk. -/
def c4sys : Sys :=
  ⟨⟨[⟨"f1", "/cache/f1", 5, FileState.deleting, some 1⟩], [], [],
      [("maxSpace", 100)]⟩, ["/cache/f1"]⟩

/-- Failing input for C6: job j1 deletes file f1; the only other reference in
the system is held by job j2 on a different file f2, so no reference to f1
remains after the local delete and the claim says the delete proceeds. -/
def c6sys : Sys :=
  ⟨⟨[⟨"f1", "/c/f1", 10, FileState.cached, none⟩,
      ⟨"f2", "/c/f2", 20, FileState.cached, none⟩],
    [⟨"/j1/r1", "f1", "j1", RefState.immutable⟩,
      ⟨"/j2/r2", "f2", "j2", RefState.immutable⟩],
    [⟨"j1", "/t1", 10, some 1⟩, ⟨"j2", "/t2", 20, some 2⟩],
    [("maxSpace", 100)]⟩,
    ["/c/f1", "/c/f2", "/j1/r1", "/j2/r2"]⟩

/-- First-call state for C7: no freeCaching property stored yet. -/
def sys7 : Sys :=
  ⟨⟨[], [], [], [("maxSpace", 100)]⟩, []⟩

/-- Second-call state for C7: freeCaching already stored as 0. -/
def sys7stored : Sys :=
  ⟨⟨[], [], [], [("maxSpace", 100), ("freeCaching", 0)]⟩, []⟩

/-- A state with empty files and jobs tables (maxSpace is set). -/
def sysE : Sys :=
  ⟨⟨[], [], [], [("maxSpace", 100)]⟩, []⟩

/-- Witness state for C3, C5 and C10: one cached file with one immutable
reference from the running job j1; available = 100 - 10 - (30 - 10) = 80. -/
def sysW : Sys :=
  ⟨⟨[⟨"f1", "/c/f1", 10, FileState.cached, none⟩],
    [⟨"/j1/a", "f1", "j1", RefState.immutable⟩],
    [⟨"j1", "/t1", 30, some 1⟩], [("maxSpace", 100)]⟩,
    ["/c/f1", "/j1/a"]⟩

/-- Write parameters for the C3 witness: a fresh file admitted with a
successful hardlink. -/
def w3 : WriteParams :=
  ⟨"/j1/local3", 5, "j1", "fNew3", "/c/fNew3", 1, true⟩

/-- Write parameters for the C5 witness: a fresh file whose hardlink into the
cache fails. -/
def w5 : WriteParams :=
  ⟨"/j1/local5", 5, "j1", "fNew5", "/c/fNew5", 1, false⟩

/-! Helper lemmas about the SQL aggregate embedding. -/

theorem sqlSum_of_ne_nil (l : List Int) (h : l ≠ []) :
    sqlSum l = some (sumInts l) := by
  cases l with
  | nil => exact absurd rfl h
  | cons a t => rfl

theorem optSub_none_right (x : Option Int) : optSub x none = none := by
  cases x <;> rfl

theorem optSub_none_left (y : Option Int) : optSub none y = none := by
  cases y <;> rfl

theorem flatMap_const_nil {α β : Type} (l : List α) :
    l.flatMap (fun _ => ([] : List β)) = [] := by
  induction l with
  | nil => rfl
  | cons a t ih => simp [ih]

theorem immutableRefFileSizes_files_nil (db : DB) (h : db.files = []) :
    immutableRefFileSizes db = [] := by
  unfold immutableRefFileSizes
  rw [h]
  exact flatMap_const_nil _

theorem getCacheUsed_none (db : DB) (h : db.files = []) :
    getCacheUsed db = none := by
  simp [getCacheUsed, h, sqlSum]

theorem getCacheAvailable_none (db : DB) (h : db.files = [] ∨ db.jobs = []) :
    getCacheAvailable db = none := by
  unfold getCacheAvailable
  rcases h with h | h
  · rw [h]
    show optSub (optSub _ (sqlSum ([].map _))) _ = none
    rw [show sqlSum (([] : List FileRow).map (fun f => f.size)) = none from rfl,
      optSub_none_right, optSub_none_left]
  · rw [h]
    rw [show sqlSum (([] : List JobRow).map (fun j => j.disk)) = none from rfl,
      optSub_none_left, optSub_none_right]

theorem getCacheExtraJobSpace_none (db : DB) (h : db.files = [] ∨ db.jobs = []) :
    getCacheExtraJobSpace db = none := by
  unfold getCacheExtraJobSpace
  rcases h with h | h
  · rw [immutableRefFileSizes_files_nil db h]
    rw [show sqlSum [] = none from rfl, optSub_none_right]
  · rw [h]
    rw [show sqlSum (([] : List JobRow).map (fun j => j.disk)) = none from rfl,
      optSub_none_left]

/-! Helper lemmas about the embedded operations. -/

theorem tryToFreeUpSpaceRun_eq (s : Sys) :
    tryToFreeUpSpaceRun s = (s, Except.error Err.attributeError) := rfl

theorem freeUpSpaceRun_fst (fuel : Nat) (s : Sys) :
    (freeUpSpaceRun fuel s).1 = s := by
  cases fuel with
  | zero => rfl
  | succ n =>
    unfold freeUpSpaceRun
    cases hga : getCacheAvailable s.db with
    | none => rfl
    | some v =>
      by_cases hv : v < 0
      · simp [pyLtZero, hv, tryToFreeUpSpaceRun_eq]
      · simp [pyLtZero, hv]

theorem filter_not_of_filter_nil {α : Type} (p : α → Prop) [DecidablePred p]
    (l : List α) (h : l.filter (fun a => decide (p a)) = []) :
    l.filter (fun a => decide (¬ p a)) = l := by
  induction l with
  | nil => rfl
  | cons a t ih =>
    by_cases hp : p a
    · rw [List.filter_cons_of_pos (by simpa using hp)] at h
      exact absurd h (List.cons_ne_nil _ _)
    · rw [List.filter_cons_of_neg (by simpa using hp)] at h
      rw [List.filter_cons_of_pos (by simpa using hp), ih h]

theorem list_map_self {α : Type} (g : α → α) (l : List α)
    (h : ∀ x ∈ l, g x = x) : l.map g = l := by
  induction l with
  | nil => rfl
  | cons a t ih =>
    rw [List.map_cons, h a (List.mem_cons_self a t),
      ih (fun x hx => h x (List.mem_cons_of_mem a hx))]

theorem list_filter_self {α : Type} (p : α → Bool) (l : List α)
    (h : ∀ x ∈ l, p x = true) : l.filter p = l := by
  induction l with
  | nil => rfl
  | cons a t ih =>
    rw [List.filter_cons_of_pos (h a (List.mem_cons_self a t)),
      ih (fun x hx => h x (List.mem_cons_of_mem a hx))]

theorem deleteLocalFileRun_frame (jobID fileStoreID : String) (fuel : Nat)
    (s : Sys) :
    ((deleteLocalFileRun jobID fileStoreID fuel s).1).db.files = s.db.files ∧
    ((deleteLocalFileRun jobID fileStoreID fuel s).1).db.jobs = s.db.jobs ∧
    ((deleteLocalFileRun jobID fileStoreID fuel s).1).db.props = s.db.props ∧
    (((deleteLocalFileRun jobID fileStoreID fuel s).1).db.refs = s.db.refs ∨
      ((deleteLocalFileRun jobID fileStoreID fuel s).1).db.refs =
        s.db.refs.filter (fun r =>
          decide (¬ (r.file_id = fileStoreID ∧ r.job_id = jobID)))) := by
  unfold deleteLocalFileRun
  split
  · exact ⟨rfl, rfl, rfl, Or.inl rfl⟩
  · rw [freeUpSpaceRun_fst]
    exact ⟨rfl, rfl, rfl, Or.inr rfl⟩

theorem readGlobalFileRun_fst (cache : Bool) (s : Sys) :
    (readGlobalFileRun cache s).1 = s := by
  cases cache <;> rfl

theorem cachingIsFreeRun_files (isFileJobStore : Bool) (st_nlink : Nat)
    (s : Sys) :
    (cachingIsFreeRun isFileJobStore st_nlink s).1.db.files = s.db.files := by
  unfold cachingIsFreeRun
  split
  · rfl
  · split <;> rfl

theorem allocateSpaceForJobRun_files (jobID temp : String) (newJobReqs : Int)
    (pid fuel : Nat) (s : Sys) :
    ((allocateSpaceForJobRun jobID temp newJobReqs pid fuel s).1).db.files =
      s.db.files := by
  unfold allocateSpaceForJobRun
  split
  · rfl
  · split
    · rfl
    · split
      · rfl
      · rw [freeUpSpaceRun_fst]

theorem deleteGlobalFileRun_files (jobID fileStoreID : String) (fuel : Nat)
    (s : Sys) :
    ((deleteGlobalFileRun jobID fileStoreID fuel s).1).db.files =
      s.db.files := by
  unfold deleteGlobalFileRun
  split
  next s1 e heq =>
    have h1 := (deleteLocalFileRun_frame jobID fileStoreID fuel s).1
    rw [heq] at h1
    exact h1
  next s1 u heq =>
    have h1 := (deleteLocalFileRun_frame jobID fileStoreID fuel s).1
    rw [heq] at h1
    exact h1

/-! Helper lemmas about the owner/state invariant. -/

theorem filesInv_filter (p : FileRow → Bool) (l : List FileRow)
    (h : filesInv l) : filesInv (l.filter p) :=
  fun f hf => h f (List.mem_of_mem_filter hf)

theorem filesInv_append_one (l : List FileRow) (row : FileRow)
    (hrow : row.state = FileState.cached ↔ row.owner = none)
    (h : filesInv l) : filesInv (l ++ [row]) := by
  intro f hf
  rcases List.mem_append.mp hf with hf | hf
  · exact h f hf
  · have := List.mem_singleton.mp hf
    subst this
    exact hrow

theorem filesInv_setCached (db : DB) (i : String) (h : filesInv db.files) :
    filesInv (setCachedById db i).files := by
  intro f hf
  unfold setCachedById at hf
  simp only [List.mem_map] at hf
  obtain ⟨g, hg, rfl⟩ := hf
  by_cases hgi : g.id = i
  · simp [hgi]
  · simp only [hgi, if_false]
    exact h g hg

theorem filesInv_foldSetCached (rows : List FileRow) (db : DB)
    (h : filesInv db.files) :
    filesInv ((rows.foldl (fun d f => setCachedById d f.id) db).files) := by
  induction rows generalizing db with
  | nil => exact h
  | cons a t ih => exact ih _ (filesInv_setCached db a.id h)

theorem uploadRow_not_cached (w : WriteParams) :
    (⟨w.fileID, w.cachePath, w.fileSize, FileState.uploading,
      some w.pid⟩ : FileRow).state = FileState.cached ↔
    (⟨w.fileID, w.cachePath, w.fileSize, FileState.uploading,
      some w.pid⟩ : FileRow).owner = none := by
  constructor <;> intro hx <;> simp at hx

theorem writeGlobalFileRun_filesInv (w : WriteParams) (s : Sys)
    (h : filesInv s.db.files) :
    filesInv (writeGlobalFileRun w s).sys.db.files := by
  unfold writeGlobalFileRun
  split
  · exact h
  · split
    · exact filesInv_append_one _ _ (uploadRow_not_cached w) h
    · split
      · exact filesInv_append_one _ _ (uploadRow_not_cached w) h
      · exact filesInv_filter _ _
          (filesInv_append_one _ _ (uploadRow_not_cached w) h)

theorem executePendingUploadsRun_filesInv (pid : Nat)
    (uploadOk : String → String → Bool) (s : Sys) (h : filesInv s.db.files) :
    filesInv (executePendingUploadsRun pid uploadOk s).1.db.files := by
  unfold executePendingUploadsRun
  split
  · exact filesInv_foldSetCached _ _ h
  · exact h

theorem commitCurrentJobRun_filesInv (pid : Nat)
    (uploadOk : String → String → Bool) (s : Sys) (h : filesInv s.db.files) :
    filesInv (commitCurrentJobRun pid uploadOk s).1.db.files := by
  unfold commitCurrentJobRun
  split
  next s1 e heq =>
    have h2 := executePendingUploadsRun_filesInv pid uploadOk s h
    rw [heq] at h2
    exact h2
  next s1 u heq =>
    have h2 := executePendingUploadsRun_filesInv pid uploadOk s h
    rw [heq] at h2
    exact h2

theorem find?_append_of_none {α : Type} (p : α → Bool) (l : List α) (x : α)
    (h : l.find? p = none) (hx : p x = true) :
    (l ++ [x]).find? p = some x := by
  induction l with
  | nil => simp [List.find?_cons, hx]
  | cons a t ih =>
    have hpa : p a = false := by
      cases hpa : p a
      · rfl
      · rw [List.find?_cons_of_pos _ hpa] at h
        exact absurd h (by simp)
    rw [List.find?_cons_of_neg _ (by simp [hpa])] at h
    rw [List.cons_append, List.find?_cons_of_neg _ (by simp [hpa])]
    exact ih h

theorem db_eta_refs (db : DB) : ({ db with refs := db.refs } : DB) = db := rfl

/-! Claim C1. -/

/-- C1 counterexample: in the state c1db (maxSpace 100, one 10-byte cached
file, one job with disk 20, no references) the claim says getCacheAvailable
returns maxSpace minus used minus job overhead, which is 70; the code returns
NULL, because the SQL SUM over the empty immutable-reference join is NULL and
NULL propagates through the outer subtractions. -/
theorem c1_available_counterexample :
    c1db.propValue "maxSpace" = some 100 ∧
    claimAvailable 100 c1db = 70 ∧
    getCacheAvailable c1db = none := by
  refine ⟨rfl, by decide, rfl⟩

/-- C1 (amended): whenever every aggregate in the query is non-NULL — the
files table is nonempty, the jobs table is nonempty, maxSpace is set, and at
least one immutable reference joins to a files row — getCacheAvailable
returns maxSpace minus the sum of File.size minus the job overhead, where
the overhead counts File.size once per immutable reference of the join; and
when that value is exactly 0, getCacheAvailable returns 0 and _freeUpSpace
returns at once without evicting anything or changing any state. -/
theorem c1_available_formula (s : Sys) (m : Int) (fuel : Nat)
    (hms : s.db.propValue "maxSpace" = some m)
    (hf : s.db.files ≠ []) (hj : s.db.jobs ≠ [])
    (hr : immutableRefFileSizes s.db ≠ []) :
    getCacheAvailable s.db =
      some (m - sumInts (s.db.files.map (fun f => f.size)) -
        (sumInts (s.db.jobs.map (fun j => j.disk)) -
          sumInts (immutableRefFileSizes s.db))) ∧
    (m - sumInts (s.db.files.map (fun f => f.size)) -
        (sumInts (s.db.jobs.map (fun j => j.disk)) -
          sumInts (immutableRefFileSizes s.db)) = 0 →
      freeUpSpaceRun (fuel + 1) s = (s, Except.ok ())) := by
  have hfm : s.db.files.map (fun f => f.size) ≠ [] := by
    intro hmap
    exact hf (List.map_eq_nil_iff.mp hmap)
  have hjm : s.db.jobs.map (fun j => j.disk) ≠ [] := by
    intro hmap
    exact hj (List.map_eq_nil_iff.mp hmap)
  have hval : getCacheAvailable s.db =
      some (m - sumInts (s.db.files.map (fun f => f.size)) -
        (sumInts (s.db.jobs.map (fun j => j.disk)) -
          sumInts (immutableRefFileSizes s.db))) := by
    unfold getCacheAvailable
    rw [hms, sqlSum_of_ne_nil _ hfm, sqlSum_of_ne_nil _ hjm,
      sqlSum_of_ne_nil _ hr]
    rfl
  refine ⟨hval, fun h0 => ?_⟩
  rw [h0] at hval
  show freeUpSpaceRun (fuel + 1) s = (s, Except.ok ())
  unfold freeUpSpaceRun
  rw [hval]
  rfl

/-- C1 witness: the boundary state c1sysEq has maxSpace 30 = used 10 plus
job overhead 20; getCacheAvailable returns 0 and _freeUpSpace does not
evict. -/
theorem c1_available_formula_witness :
    getCacheAvailable c1sysEq.db = some 0 ∧
    freeUpSpaceRun 1 c1sysEq = (c1sysEq, Except.ok ()) := by
  have h := c1_available_formula c1sysEq 30 0 rfl (by decide) (by decide)
    (by decide)
  exact ⟨by rw [h.1]; decide, h.2 (by decide)⟩

/-! Claim C2. -/

/-- C2: on the failing input c2sys (a file in deleting state owned by dead
PID 99) the recovery step does not remap the file by its (owner, state) pair:
_stealWorkFromTheDead raises OperationalError at its very first statement and
the file keeps its dead owner and old state. -/
theorem c2_stealWork_raises :
    stealWorkFromTheDeadRun c2sys = (c2sys, Except.error Err.operationalError) ∧
    (stealWorkFromTheDeadRun c2sys).1.db.files.any (fun f =>
      decide (f.owner = some 99 ∧ f.state = FileState.deleting)) = true :=
  ⟨rfl, by decide⟩

/-! Claim C4. -/

/-- C4: on the failing input c4sys (a file in deleting state owned by the
calling PID 1, its path present on disk) _executePendingDeletions raises
OperationalError at its first statement; the row with (owner = self, state =
deleting) remains in the files table and the on-disk path is not unlinked,
contradicting the claimed postcondition. -/
theorem c4_pendingDeletions_raises :
    executePendingDeletionsRun c4sys = (c4sys, Except.error Err.operationalError) ∧
    (executePendingDeletionsRun c4sys).1.db.files.any (fun f =>
      decide (f.owner = some 1 ∧ f.state = FileState.deleting)) = true ∧
    "/cache/f1" ∈ (executePendingDeletionsRun c4sys).1.disk :=
  ⟨rfl, by decide, by decide⟩

/-! Claim C3. -/

/-- C3: every operation of the store preserves the invariant that a files row
has a null owner exactly when its state is cached: files are inserted as
uploading or downloading with the caller PID as owner, and every transition
to cached simultaneously sets owner to NULL. -/
theorem c3_owner_state_invariant (op : Op) (s : Sys) (h : ownerStateInv s) :
    ownerStateInv (applyOp op s) := by
  cases op with
  | writeGlobal w => exact writeGlobalFileRun_filesInv w s h
  | readGlobal c =>
    show filesInv (readGlobalFileRun c s).1.db.files
    rw [readGlobalFileRun_fst]
    exact h
  | deleteLocal j f fuel =>
    show filesInv (deleteLocalFileRun j f fuel s).1.db.files
    rw [(deleteLocalFileRun_frame j f fuel s).1]
    exact h
  | deleteGlobal j f fuel =>
    show filesInv (deleteGlobalFileRun j f fuel s).1.db.files
    rw [deleteGlobalFileRun_files]
    exact h
  | pendingUploads pid ok => exact executePendingUploadsRun_filesInv pid ok s h
  | pendingDeletions => exact h
  | stealWork => exact h
  | removeDead => exact h
  | tryFree => exact h
  | free fuel =>
    show filesInv (freeUpSpaceRun fuel s).1.db.files
    rw [freeUpSpaceRun_fst]
    exact h
  | allocate j t r pid fuel =>
    show filesInv (allocateSpaceForJobRun j t r pid fuel s).1.db.files
    rw [allocateSpaceForJobRun_files]
    exact h
  | adjustLimit n => exact h
  | checkFree b n =>
    show filesInv (cachingIsFreeRun b n s).1.db.files
    rw [cachingIsFreeRun_files]
    exact h
  | commit pid ok => exact commitCurrentJobRun_filesInv pid ok s h
  | shutdownOp => exact h

/-- C3 witness: the invariant holds in the state sysW and is preserved by a
writeGlobalFile operation there. -/
theorem c3_owner_state_invariant_witness :
    ownerStateInv sysW ∧ ownerStateInv (applyOp (Op.writeGlobal w3) sysW) := by
  have h : ownerStateInv sysW := by
    unfold ownerStateInv filesInv
    decide
  exact ⟨h, c3_owner_state_invariant (Op.writeGlobal w3) sysW h⟩

/-! Claim C5. -/

/-- C5: when the hardlink into the cache fails, writeGlobalFile degrades
rather than raising: the just-inserted immutable reference for the local path
becomes mutable, the files row inserted for the new fileID is deleted again
(so no files row for it remains), the local file is synchronously uploaded to
the JobStore via updateFile, and the call still returns the FileID. -/
theorem c5_writeGlobalFile_link_failure (w : WriteParams) (s : Sys)
    (hlink : w.linkOk = false)
    (hid : ∀ f ∈ s.db.files, ¬ f.id = w.fileID)
    (hpath : ∀ f ∈ s.db.files, ¬ f.path = w.cachePath)
    (href : ∀ r ∈ s.db.refs, ¬ r.path = w.absLocalFileName) :
    (writeGlobalFileRun w s).ret = Except.ok w.fileID ∧
    (writeGlobalFileRun w s).jobStoreUploads = [(w.fileID, w.absLocalFileName)] ∧
    (writeGlobalFileRun w s).sys.db.refs =
      s.db.refs ++ [⟨w.absLocalFileName, w.fileID, w.creatorID, RefState.mutable⟩] ∧
    (writeGlobalFileRun w s).sys.db.files = s.db.files ∧
    (writeGlobalFileRun w s).sys.disk = s.disk := by
  have hany1 : s.db.files.any (fun f =>
      decide (f.id = w.fileID ∨ f.path = w.cachePath)) = false := by
    rw [List.any_eq_false]
    intro f hf
    simp only [decide_eq_true_eq]
    rintro (hc | hc)
    · exact hid f hf hc
    · exact hpath f hf hc
  have hany2 : s.db.refs.any (fun r =>
      decide (r.path = w.absLocalFileName)) = false := by
    rw [List.any_eq_false]
    intro r hr
    simp only [decide_eq_true_eq]
    exact href r hr
  have hmap : (s.db.refs ++ [(⟨w.absLocalFileName, w.fileID, w.creatorID,
      RefState.immutable⟩ : RefRow)]).map
      (fun r => if r.path = w.absLocalFileName then { r with state := RefState.mutable }
        else r) =
      s.db.refs ++ [⟨w.absLocalFileName, w.fileID, w.creatorID, RefState.mutable⟩] := by
    rw [List.map_append]
    congr 1
    · exact list_map_self _ _ (fun r hr => if_neg (href r hr))
    · simp
  have hfil : ((s.db.files ++ [(⟨w.fileID, w.cachePath, w.fileSize,
      FileState.uploading, some w.pid⟩ : FileRow)]).filter
      (fun f => decide (¬ f.id = w.fileID))) = s.db.files := by
    rw [List.filter_append]
    have h1 : s.db.files.filter (fun f => decide (¬ f.id = w.fileID)) = s.db.files :=
      list_filter_self _ _ (fun f hf => by
        simp only [decide_eq_true_eq]
        exact hid f hf)
    have h2 : ([(⟨w.fileID, w.cachePath, w.fileSize, FileState.uploading,
        some w.pid⟩ : FileRow)].filter (fun f => decide (¬ f.id = w.fileID))) = [] := by
      simp
    rw [h1, h2, List.append_nil]
  unfold writeGlobalFileRun
  rw [hany1, hany2, hlink]
  simp only [Bool.false_eq_true, if_false]
  refine ⟨?_, ?_, ?_, ?_, ?_⟩
  · trivial
  · trivial
  · rw [hmap]
  · rw [hfil]
  · trivial

/-- C5 witness: with the link failing on the concrete state sysW, the call
returns the FileID, performs the one synchronous upload, turns the reference
mutable, and leaves no files row for the new fileID. -/
theorem c5_writeGlobalFile_link_failure_witness :
    (writeGlobalFileRun w5 sysW).ret = Except.ok "fNew5" ∧
    (writeGlobalFileRun w5 sysW).jobStoreUploads = [("fNew5", "/j1/local5")] ∧
    (writeGlobalFileRun w5 sysW).sys.db.refs =
      sysW.db.refs ++ [⟨"/j1/local5", "fNew5", "j1", RefState.mutable⟩] ∧
    (writeGlobalFileRun w5 sysW).sys.db.files = sysW.db.files ∧
    (writeGlobalFileRun w5 sysW).sys.disk = sysW.disk := by
  have h := c5_writeGlobalFile_link_failure w5 sysW rfl (by decide) (by decide)
    (by decide)
  exact ⟨h.1, h.2.1, h.2.2.1, h.2.2.2.1, h.2.2.2.2⟩

/-! Claim C6. -/

/-- C6: on the failing input c6sys, where after the local delete no reference
to f1 from any other job remains, deleteGlobalFile does not proceed with the
deletion as claimed: after performing the local delete it raises
ProgrammingError (two bindings for a one-placeholder query), f1 is never
transitioned to deleting (it stays cached), and nothing is queued for
backing-store deletion. -/
theorem c6_deleteGlobalFile_raises :
    (c6sys.db.refs.filter (fun r =>
      decide (r.file_id = "f1" ∧ ¬ r.job_id = "j1"))) = [] ∧
    (deleteGlobalFileRun "j1" "f1" 1 c6sys).2.2 =
      Except.error Err.programmingError ∧
    (deleteGlobalFileRun "j1" "f1" 1 c6sys).2.1 = [] ∧
    (deleteGlobalFileRun "j1" "f1" 1 c6sys).1.db.files.any (fun f =>
      decide (f.id = "f1" ∧ f.state = FileState.deleting)) = false ∧
    (deleteGlobalFileRun "j1" "f1" 1 c6sys).1.db.files.any (fun f =>
      decide (f.id = "f1" ∧ f.state = FileState.cached)) = true :=
  ⟨by decide, rfl, rfl, by decide, by decide⟩

/-! Claim C7. -/

/-- C7 counterexample: a probe that finds link count 3 persists freeCaching =
0 and returns false, while the claim (link count at least 2 gives 1) says 1. -/
theorem c7_cachingIsFree_counterexample :
    claimFreeValue 3 = 1 ∧
    sys7.db.propValue "freeCaching" = none ∧
    (cachingIsFreeRun true 3 sys7).1.db.propValue "freeCaching" = some 0 ∧
    (cachingIsFreeRun true 3 sys7).2 = false :=
  ⟨by decide, rfl, by decide, by decide⟩

/-- Behavior of cachingIsFree on a first call (no stored freeCaching): it
persists and returns the probe result. -/
theorem cachingIsFreeRun_of_none (isFileJobStore : Bool) (st_nlink : Nat)
    (s : Sys) (h : s.db.propValue "freeCaching" = none) :
    cachingIsFreeRun isFileJobStore st_nlink s =
      (⟨{ s.db with props := s.db.props ++ [("freeCaching",
          if isFileJobStore then (if st_nlink = 2 then 1 else 0) else 0)] },
        s.disk⟩,
        decide ((if isFileJobStore then (if st_nlink = 2 then (1 : Int) else 0)
          else 0) = 1)) := by
  have hfind : s.db.props.find? (fun q => decide (q.1 = "freeCaching")) = none :=
    Option.map_eq_none'.mp h
  have hany : s.db.props.any (fun q => decide (q.1 = "freeCaching")) = false := by
    rw [List.any_eq_false]
    intro q hq
    exact List.find?_eq_none.mp hfind q hq
  unfold cachingIsFreeRun
  rw [h, hany]
  simp only [Bool.false_eq_true, if_false]

/-- C7 (amended): on the first call for a run the probe persists freeCaching =
1 exactly when the JobStore is file-based and the link count of the
materialized copy is exactly 2 (so both a count of 1 and a count of 3 or more
give 0), and returns that; every later call returns the stored value without
probing and without touching the state. -/
theorem c7_cachingIsFree_amended (isFileJobStore : Bool) (st_nlink : Nat)
    (s : Sys) (v : Int) :
    (s.db.propValue "freeCaching" = none →
      ((cachingIsFreeRun isFileJobStore st_nlink s).1.db.propValue "freeCaching" =
          some (if isFileJobStore = true ∧ st_nlink = 2 then 1 else 0) ∧
        (cachingIsFreeRun isFileJobStore st_nlink s).2 =
          decide (isFileJobStore = true ∧ st_nlink = 2))) ∧
    (s.db.propValue "freeCaching" = some v →
      cachingIsFreeRun isFileJobStore st_nlink s = (s, decide (v = 1))) := by
  constructor
  · intro h
    have hfind : s.db.props.find? (fun q => decide (q.1 = "freeCaching")) = none :=
      Option.map_eq_none'.mp h
    have hfa : (s.db.props ++ [("freeCaching",
        if isFileJobStore then (if st_nlink = 2 then (1 : Int) else 0) else 0)]).find?
          (fun q => decide (q.1 = "freeCaching")) =
        some ("freeCaching",
          if isFileJobStore then (if st_nlink = 2 then (1 : Int) else 0) else 0) :=
      find?_append_of_none _ _ _ hfind (by simp)
    have hfree : (if isFileJobStore then (if st_nlink = 2 then (1 : Int) else 0)
        else 0) = (if isFileJobStore = true ∧ st_nlink = 2 then (1 : Int) else 0) := by
      cases isFileJobStore <;> simp
    rw [cachingIsFreeRun_of_none isFileJobStore st_nlink s h]
    constructor
    · show DB.propValue _ "freeCaching" = _
      unfold DB.propValue
      rw [hfa, ← hfree]
      exact rfl
    · show decide _ = decide _
      rw [hfree]
      by_cases hA : isFileJobStore = true ∧ st_nlink = 2
      · simp [hA]
      · simp [hA]
  · intro h
    unfold cachingIsFreeRun
    rw [h]

/-- C7 witness: a first call with a file job store and link count exactly 2
persists 1 and returns true; a later call with the value 0 stored returns
false without changing anything. -/
theorem c7_cachingIsFree_amended_witness :
    ((cachingIsFreeRun true 2 sys7).1.db.propValue "freeCaching" = some 1 ∧
      (cachingIsFreeRun true 2 sys7).2 = true) ∧
    cachingIsFreeRun true 5 sys7stored = (sys7stored, false) := by
  have h1 := (c7_cachingIsFree_amended true 2 sys7 0).1 rfl
  have h2 := (c7_cachingIsFree_amended true 5 sys7stored 0).2 rfl
  exact ⟨⟨by rw [h1.1]; decide, by rw [h1.2]; decide⟩, h2⟩

/-! Claim C8. -/

/-- C8: the recovery engine (_removeDeadJobs followed by _stealWorkFromTheDead)
is idempotent: running it from the state it left behind produces that same
state (and the same outcome) again.  This holds because _removeDeadJobs raises
AttributeError at its first statement on every call, so a run changes neither
the database nor the disk. -/
theorem c8_recovery_idempotent (s : Sys) :
    recoveryEngineRun ((recoveryEngineRun s).1) = recoveryEngineRun s := rfl

/-! Claim C9. -/

/-- C9: with an empty files table getCacheUsed is NULL; with an empty files
table or an empty jobs table getCacheAvailable and getCacheExtraJobSpace are
NULL (SUM over zero rows is NULL and NULL propagates through subtraction);
and in those states the available-versus-zero comparisons receive None: the
_freeUpSpace loop guard raises TypeError immediately, and (for the empty
files table, which the insert of _allocateSpaceForJob leaves empty) so does
the `getCacheAvailable() >= 0` check of _allocateSpaceForJob. -/
theorem c9_null_propagation (s : Sys) (fuel : Nat) (jobID temp : String)
    (newJobReqs : Int) (pid : Nat) :
    (s.db.files = [] → getCacheUsed s.db = none) ∧
    (s.db.files = [] ∨ s.db.jobs = [] →
      getCacheAvailable s.db = none ∧ getCacheExtraJobSpace s.db = none) ∧
    (s.db.files = [] ∨ s.db.jobs = [] →
      freeUpSpaceRun (fuel + 1) s = (s, Except.error Err.typeError)) ∧
    (s.db.files = [] →
      s.db.jobs.any (fun j => decide (j.id = jobID)) = false →
      (allocateSpaceForJobRun jobID temp newJobReqs pid fuel s).2 =
        Except.error Err.typeError) := by
  refine ⟨fun h => getCacheUsed_none s.db h,
    fun h => ⟨getCacheAvailable_none s.db h, getCacheExtraJobSpace_none s.db h⟩,
    fun h => ?_, fun hfiles hany => ?_⟩
  · unfold freeUpSpaceRun
    rw [getCacheAvailable_none s.db h]
    rfl
  · unfold allocateSpaceForJobRun
    rw [hany]
    have hnone : getCacheAvailable
        { s.db with jobs := s.db.jobs ++ [⟨jobID, temp, newJobReqs, some pid⟩] } =
        none :=
      getCacheAvailable_none _ (Or.inl hfiles)
    simp only [Bool.false_eq_true, if_false, hnone]

/-- C9 witness: in the state sysE (maxSpace set, all tables empty) every
getter is NULL, the _freeUpSpace guard raises TypeError, and the
_allocateSpaceForJob check raises TypeError. -/
theorem c9_null_propagation_witness :
    getCacheUsed sysE.db = none ∧
    getCacheAvailable sysE.db = none ∧
    getCacheExtraJobSpace sysE.db = none ∧
    freeUpSpaceRun 1 sysE = (sysE, Except.error Err.typeError) ∧
    (allocateSpaceForJobRun "j9" "/t9" 50 7 0 sysE).2 =
      Except.error Err.typeError := by
  have h := c9_null_propagation sysE 0 "j9" "/t9" 50 7
  exact ⟨h.1 rfl, (h.2.1 (Or.inl rfl)).1, (h.2.1 (Or.inl rfl)).2,
    h.2.2.1 (Or.inl rfl), h.2.2.2 rfl (by decide)⟩

/-! Claim C10. -/

/-- C10 counterexample: in the state sysE the current job j1 holds no
reference to f1, yet deleteLocalFile does not return without raising: the
_freeUpSpace it invokes compares the NULL getCacheAvailable result with 0 and
raises TypeError. -/
theorem c10_deleteLocalFile_counterexample :
    sysE.db.refs.filter (fun r =>
      decide (r.file_id = "f1" ∧ r.job_id = "j1")) = [] ∧
    (deleteLocalFileRun "j1" "f1" 1 sysE).2 = Except.error Err.typeError :=
  ⟨rfl, rfl⟩

/-- C10 (amended): the reference-removal step of deleteLocalFile only removes
reference rows whose file_id and job_id match — the files, jobs and
properties tables are untouched and the final refs table is either the
original one or the original one minus exactly the matching rows; and when
the current job holds no reference to the fileStoreID and getCacheAvailable
is a non-negative integer, the call removes nothing and raises nothing (the
invoked _freeUpSpace returns at once). -/
theorem c10_deleteLocalFile_frame (jobID fileStoreID : String) (fuel : Nat)
    (s : Sys) (v : Int) :
    (((deleteLocalFileRun jobID fileStoreID (fuel + 1) s).1).db.files = s.db.files ∧
      ((deleteLocalFileRun jobID fileStoreID (fuel + 1) s).1).db.jobs = s.db.jobs ∧
      ((deleteLocalFileRun jobID fileStoreID (fuel + 1) s).1).db.props = s.db.props ∧
      (((deleteLocalFileRun jobID fileStoreID (fuel + 1) s).1).db.refs = s.db.refs ∨
        ((deleteLocalFileRun jobID fileStoreID (fuel + 1) s).1).db.refs =
          s.db.refs.filter (fun r =>
            decide (¬ (r.file_id = fileStoreID ∧ r.job_id = jobID))))) ∧
    (s.db.refs.filter (fun r =>
        decide (r.file_id = fileStoreID ∧ r.job_id = jobID)) = [] →
      getCacheAvailable s.db = some v → 0 ≤ v →
      deleteLocalFileRun jobID fileStoreID (fuel + 1) s = (s, Except.ok ())) := by
  refine ⟨deleteLocalFileRun_frame _ _ _ _, fun hno hav hv => ?_⟩
  have hkeep : s.db.refs.filter (fun r =>
      decide (¬ (r.file_id = fileStoreID ∧ r.job_id = jobID))) = s.db.refs :=
    filter_not_of_filter_nil
      (fun r => (r.file_id = fileStoreID ∧ r.job_id = jobID)) s.db.refs hno
  unfold deleteLocalFileRun
  rw [hno]
  show freeUpSpaceRun (fuel + 1)
      ⟨{ s.db with refs := s.db.refs.filter (fun r =>
        decide (¬ (r.file_id = fileStoreID ∧ r.job_id = jobID))) }, s.disk⟩ =
    (s, Except.ok ())
  rw [hkeep]
  show freeUpSpaceRun (fuel + 1) s = (s, Except.ok ())
  have hv' : ¬ v < 0 := not_lt.mpr hv
  unfold freeUpSpaceRun
  rw [hav]
  simp [pyLtZero, hv']

/-- C10 witness: deleting the references of job j1 to the absent file fZ in
the state sysW (available 70) removes nothing and returns without raising,
and the frame facts hold there. -/
theorem c10_deleteLocalFile_frame_witness :
    (deleteLocalFileRun "j1" "fZ" 1 sysW).1.db.files = sysW.db.files ∧
    (deleteLocalFileRun "j1" "fZ" 1 sysW).1.db.jobs = sysW.db.jobs ∧
    (deleteLocalFileRun "j1" "fZ" 1 sysW).1.db.props = sysW.db.props ∧
    deleteLocalFileRun "j1" "fZ" 1 sysW = (sysW, Except.ok ()) := by
  have h := c10_deleteLocalFile_frame "j1" "fZ" 0 sysW 70
  exact ⟨h.1.1, h.1.2.1, h.1.2.2.1, h.2 (by decide) (by decide) (by decide)⟩

end Toil
